import Mathlib

/-!
Verification of the acquisition-and-transcription pipeline of the
`yt-transcribe` repository (module `youtube_transcriber.py`).

External capabilities (caption retrieval, the four yt-dlp download
strategies, ffmpeg, the Whisper model, the OpenAI summarizer) are modelled
as oracle outcomes supplied through an `Env` record; the control flow of
the Python code is translated faithfully, including its exception
wrapping, the `finally` cleanup of temporary files, and the regex-based
video-id extraction.
-/

set_option autoImplicit false

namespace YtTranscribe

/-! ### Video-id extraction (`_extract_video_id`, lines 63-75)

The Python code applies `re.search` with two patterns:

  1. `(?:youtube\.com\/watch\?v=|youtu\.be\/|youtube\.com\/embed\/)([^&\n?#]+)`
  2. `youtube\.com\/watch\?.*v=([^&\n?#]+)`

returning the first capture group of the first pattern that matches, and
raising `ValueError("URL do YouTube inválida")` when neither matches.
We model `re.search` semantics directly: leftmost starting position wins;
alternatives are tried in order at each position; `[^&\n?#]+` captures the
maximal nonempty run of characters outside the class; `.*` is greedy and
does not cross a newline. -/

/-- Characters excluded by the capture class `[^&\n?#]`. -/
def isForbidden (c : Char) : Bool :=
  c == '&' || c == '\n' || c == '?' || c == '#'

/-- `startsWithL p s` : the char list `s` begins with the literal `p`. -/
def startsWithL : List Char → List Char → Bool
  | [], _ => true
  | _ :: _, [] => false
  | p :: ps, c :: cs => p == c && startsWithL ps cs

/-- The capture `([^&\n?#]+)` starting at `s`: the maximal run of
non-forbidden characters, failing when that run is empty. -/
def captureFrom (s : List Char) : Option (List Char) :=
  if (s.takeWhile (fun c => !isForbidden c)).isEmpty then none
  else some (s.takeWhile (fun c => !isForbidden c))

/-- First alternative of pattern 1: the long watch-URL form
`youtube.com/watch?v=`. -/
def altWatch : List Char :=
  ['y', 'o', 'u', 't', 'u', 'b', 'e', '.', 'c', 'o', 'm', '/',
   'w', 'a', 't', 'c', 'h', '?', 'v', '=']

/-- Second alternative of pattern 1: the short-link form `youtu.be/`. -/
def altShort : List Char :=
  ['y', 'o', 'u', 't', 'u', '.', 'b', 'e', '/']

/-- Third alternative of pattern 1: the embed form `youtube.com/embed/`. -/
def altEmbed : List Char :=
  ['y', 'o', 'u', 't', 'u', 'b', 'e', '.', 'c', 'o', 'm', '/',
   'e', 'm', 'b', 'e', 'd', '/']

/-- Try one literal alternative followed by the capture group at a fixed
starting position. -/
def tryAlt (alt s : List Char) : Option (List Char) :=
  if startsWithL alt s then captureFrom (s.drop alt.length) else none

/-- The alternation of pattern 1 at a fixed starting position: the three
alternatives are tried in the order they are written in the regex. -/
def tryAlts (s : List Char) : Option (List Char) :=
  match tryAlt altWatch s with
  | some cap => some cap
  | none =>
    match tryAlt altShort s with
    | some cap => some cap
    | none => tryAlt altEmbed s

/-- `re.search` for pattern 1: scan starting positions left to right. -/
def searchPat1 : List Char → Option (List Char)
  | [] => none
  | c :: cs =>
    match tryAlts (c :: cs) with
    | some cap => some cap
    | none => searchPat1 cs

/-- The literal head of pattern 2: `youtube.com/watch?`. -/
def watchQ : List Char :=
  ['y', 'o', 'u', 't', 'u', 'b', 'e', '.', 'c', 'o', 'm', '/',
   'w', 'a', 't', 'c', 'h', '?']

/-- Greedy `.*v=([^&\n?#]+)` on a newline-free segment: the capture of the
last occurrence of `v=` that is followed by a nonempty capture. -/
def lastVMatch : List Char → Option (List Char)
  | [] => none
  | c :: cs =>
    match lastVMatch cs with
    | some cap => some cap
    | none =>
      if c == 'v' then
        match cs with
        | '=' :: rest => captureFrom rest
        | _ => none
      else none

/-- `re.search` for pattern 2. -/
def searchPat2 : List Char → Option (List Char)
  | [] => none
  | c :: cs =>
    match
      (if startsWithL watchQ (c :: cs) then
        lastVMatch (((c :: cs).drop watchQ.length).takeWhile (fun x => x != '\n'))
      else none) with
    | some cap => some cap
    | none => searchPat2 cs

/-- `_extract_video_id`: `none` models the raised
`ValueError("URL do YouTube inválida")`. -/
def extractVideoId (url : String) : Option String :=
  match searchPat1 url.data with
  | some cap => some (String.mk cap)
  | none =>
    match searchPat2 url.data with
    | some cap => some (String.mk cap)
    | none => none

example : extractVideoId "https://www.youtube.com/watch?v=abc123" = some "abc123" := by decide
example : extractVideoId "https://youtu.be/abc123" = some "abc123" := by decide
example : extractVideoId "https://www.youtube.com/embed/abc123" = some "abc123" := by decide
example : extractVideoId "not a url" = none := by decide
example : extractVideoId "https://www.youtube.com/watch?feature=x&v=abc" = some "abc" := by decide

/-! ### Caption fetching (`get_youtube_transcript`, lines 77-100)

The external call `YouTubeTranscriptApi.get_transcript` is modelled by its
outcome: either the ordered list of fragment texts, or an exception
message.  The Python wraps the whole attempt in `try/except Exception`
and returns `None` on any failure. -/

/-- `get_youtube_transcript`: joins fragment texts with a single space on
success, returns `none` (Python `None`) on any underlying failure. -/
def getYoutubeTranscript (outcome : Except String (List String)) : Option String :=
  match outcome with
  | .ok transcript => some (String.intercalate " " transcript)
  | .error _ => none

/-! ### The download strategy chain (`download_video`, lines 102-130)

Each of the four strategies (`_dl_basic`, `_dl_with_headers`,
`_dl_with_browser_cookies`, `_dl_with_retries`) is a pure configuration
handed to `yt_dlp`; its observable outcome is success (the file is
produced at `output_path`) or an exception message.  `download_video`
iterates the list in order, returning `output_path` on the first success
and raising `Exception(f"Erro ao baixar vídeo: {last_error}")` after the
last failure.  The second component of the result counts how many
strategies were invoked. -/

/-- `str(last_error)` in the final wrap; `last_error` starts as `None`. -/
def lastErrStr : Option String → String
  | none => "None"
  | some e => e

/-- The strategy loop of `download_video`: first success wins, the error
of the latest failed attempt is retained. -/
def dlChain (outputPath : String) :
    List (Except String Unit) → Option String → Except String String × Nat
  | [], lastErr => (.error ("Erro ao baixar vídeo: " ++ lastErrStr lastErr), 0)
  | .ok _ :: _, _ => (.ok outputPath, 1)
  | .error e :: rest, _ =>
    let r := dlChain outputPath rest (some e)
    (r.1, r.2 + 1)

/-- `download_video`: the four strategies in source order
(basic, headers, browser cookies, retries with backoff). -/
def downloadVideo (sBasic sHeaders sCookies sRetries : Except String Unit)
    (outputPath : String) : Except String String × Nat :=
  dlChain outputPath [sBasic, sHeaders, sCookies, sRetries] none

/-! ### Audio extraction (`extract_audio_ffmpeg`, lines 190-220) -/

/-- Outcome of the external ffmpeg invocation. -/
inductive ExtractOutcome where
  | ok
  | procError (e : String)
  | ffmpegMissing
  deriving DecidableEq

/-- `extract_audio_ffmpeg`: wraps `CalledProcessError` and
`FileNotFoundError` into the exceptions raised at lines 215-220. -/
def extractAudioFfmpeg : ExtractOutcome → Except String Unit
  | .ok => .ok ()
  | .procError e => .error ("Erro ao executar ffmpeg: " ++ e)
  | .ffmpegMissing => .error "FFmpeg não encontrado. Instale o FFmpeg."

/-! ### Whisper transcription (`transcribe_audio_whisper`, lines 222-250)

The transcriber object holds `self.whisper_model`, loaded from
`self.whisper_model_size` on first use.  We instrument the state with a
counter of `whisper.load_model` invocations. -/

/-- The mutable state of a `YouTubeTranscriber` instance relevant to
Whisper: the configured size tag and the lazily loaded model (represented
by the size it was loaded with).  `loads` counts model constructions. -/
structure TranscriberState where
  whisperModelSize : String
  whisperModel : Option String
  loads : Nat
  deriving DecidableEq

/-- The state produced by `__init__`: `self.whisper_model = None`. -/
def initTranscriber (size : String) : TranscriberState :=
  { whisperModelSize := size, whisperModel := none, loads := 0 }

/-- `transcribe_audio_whisper`: loads the model if it is not yet loaded,
then runs inference (outcome supplied by the oracle), wrapping failures
as `Exception(f"Erro na transcrição: {e}")`. -/
def transcribeAudioWhisper (st : TranscriberState)
    (inference : Except String String) : TranscriberState × Except String String :=
  let st' :=
    match st.whisperModel with
    | none =>
      { st with whisperModel := some st.whisperModelSize, loads := st.loads + 1 }
    | some _ => st
  match inference with
  | .ok text => (st', .ok text)
  | .error e => (st', .error ("Erro na transcrição: " ++ e))

/-- A sequence of `transcribe_audio_whisper` calls on the same instance. -/
def runTranscriptions (st : TranscriberState) :
    List (Except String String) → TranscriberState
  | [] => st
  | o :: os => runTranscriptions (transcribeAudioWhisper st o).1 os

/-! ### Summarization (`summarize_with_openai`, lines 252-307) -/

/-- `summarize_with_openai`: the OpenAI call is an oracle; any failure is
wrapped as `Exception(f"Erro ao gerar resumo com OpenAI: {e}")`. -/
def summarizeWithOpenai (outcome : Except String String) : Except String String :=
  match outcome with
  | .ok s => .ok s
  | .error e => .error ("Erro ao gerar resumo com OpenAI: " ++ e)

/-! ### The orchestrator (`process_video`, lines 309-367)

External behaviour for one run is fixed by an `Env` record of oracle
outcomes.  The filesystem is a list of existing paths: a successful
download strategy produces the file at its output path, a successful
ffmpeg run produces the audio file, and the `finally` block removes every
path recorded in `temp_files` (swallowing removal errors).  The
`RunOutput` record carries, besides the returned dictionary (or the
escaped exception), the final filesystem, the run's `temp_files` list and
whether `download_video` was invoked. -/

/-- Oracle outcomes for the external capabilities used by one run. -/
structure Env where
  captions : Except String (List String)
  stratBasic : Except String Unit
  stratHeaders : Except String Unit
  stratCookies : Except String Unit
  stratRetries : Except String Unit
  extract : ExtractOutcome
  inference : Except String String
  summary : Except String String

/-- The dictionary returned by `process_video`. -/
structure PipelineResult where
  video_id : String
  transcript : Option String
  summary : Option String
  method : Option String
  error : Option String
  success : Bool
  deriving DecidableEq

instance instDecidableEqExcept {ε α : Type _} [DecidableEq ε] [DecidableEq α] :
    DecidableEq (Except ε α) := fun x y =>
  match x, y with
  | .ok a, .ok b =>
    if h : a = b then .isTrue (congrArg Except.ok h)
    else .isFalse (fun he => h (Except.ok.inj he))
  | .error a, .error b =>
    if h : a = b then .isTrue (congrArg Except.error h)
    else .isFalse (fun he => h (Except.error.inj he))
  | .ok _, .error _ => .isFalse (fun he => Except.noConfusion he)
  | .error _, .ok _ => .isFalse (fun he => Except.noConfusion he)

/-- Result of a `process_video` call together with the ghost trace.
`outcome = .error m` models an exception escaping `process_video`. -/
structure RunOutput where
  outcome : Except String PipelineResult
  fs : List String
  tempFiles : List String
  dlInvoked : Bool
  deriving DecidableEq

/-- Default video output path of `download_video` (line 102). -/
def videoTempPath : String := "temp_video.mp4"

/-- The audio path hardcoded at line 335. -/
def audioTempPath : String := "temp_audio.wav"

/-- The `except` branch of `process_video` (lines 353-358). -/
def failureResult (vid err : String) : PipelineResult :=
  { video_id := vid, transcript := none, summary := none, method := none,
    error := some err, success := false }

/-- The `finally` block (lines 360-367): each recorded temporary file is
removed if it exists; errors during removal are swallowed. -/
def cleanupFs (fs temps : List String) : List String :=
  fs.filter (fun p => !(temps.contains p))

/-- Step 3 of `process_video` (lines 342-351): summarize and build the
success dictionary.  `method` is `"youtube_transcript"` when no temporary
file was created, `"whisper"` otherwise (line 349). -/
def finishRun (env : Env) (vid transcript : String) (temps fs : List String)
    (dl : Bool) : RunOutput :=
  match summarizeWithOpenai env.summary with
  | .error e =>
    { outcome := .ok (failureResult vid e),
      fs := cleanupFs fs temps, tempFiles := temps, dlInvoked := dl }
  | .ok s =>
    { outcome := .ok
        { video_id := vid, transcript := some transcript, summary := some s,
          method := some (if temps.isEmpty then "youtube_transcript" else "whisper"),
          error := none, success := true },
      fs := cleanupFs fs temps, tempFiles := temps, dlInvoked := dl }

/-- The slow path of `process_video` (lines 327-340): download, extract
audio, transcribe with Whisper. -/
def slowPath (env : Env) (vid : String) (fs : List String) : RunOutput :=
  match (downloadVideo env.stratBasic env.stratHeaders env.stratCookies
      env.stratRetries videoTempPath).1 with
  | .error e =>
    { outcome := .ok (failureResult vid e),
      fs := cleanupFs fs [], tempFiles := [], dlInvoked := true }
  | .ok videoPath =>
    let fs1 := videoPath :: fs
    let temps1 := [videoPath]
    match extractAudioFfmpeg env.extract with
    | .error e =>
      { outcome := .ok (failureResult vid e),
        fs := cleanupFs fs1 temps1, tempFiles := temps1, dlInvoked := true }
    | .ok _ =>
      let fs2 := audioTempPath :: fs1
      let temps2 := temps1 ++ [audioTempPath]
      match (transcribeAudioWhisper (initTranscriber "base") env.inference).2 with
      | .error e =>
        { outcome := .ok (failureResult vid e),
          fs := cleanupFs fs2 temps2, tempFiles := temps2, dlInvoked := true }
      | .ok text => finishRun env vid text temps2 fs2 true

/-- `process_video` (lines 309-367).  Note that `_extract_video_id` is
called at line 319, before the `try` block: its `ValueError` escapes. -/
def processVideo (env : Env) (url : String) (fs : List String) : RunOutput :=
  match extractVideoId url with
  | none =>
    { outcome := .error "URL do YouTube inválida", fs := fs,
      tempFiles := [], dlInvoked := false }
  | some vid =>
    match getYoutubeTranscript env.captions with
    | some t =>
      if t == "" then slowPath env vid fs
      else finishRun env vid t [] fs false
    | none => slowPath env vid fs

/-- An all-success environment where captions are available. -/
def envFast : Env :=
  { captions := .ok ["olá", "mundo"], stratBasic := .ok (), stratHeaders := .ok (),
    stratCookies := .ok (), stratRetries := .ok (), extract := .ok,
    inference := .ok "fala", summary := .ok "resumo" }

/-- An all-success environment where the caption fetch fails. -/
def envSlow : Env :=
  { envFast with captions := .error "captions disabled" }

example :
    (processVideo envFast "https://youtu.be/abc" []).outcome =
      .ok { video_id := "abc", transcript := some "olá mundo",
            summary := some "resumo", method := some "youtube_transcript",
            error := none, success := true } := by decide

example :
    (processVideo envSlow "https://youtu.be/abc" []).outcome =
      .ok { video_id := "abc", transcript := some "fala",
            summary := some "resumo", method := some "whisper",
            error := none, success := true } := by decide

example : (processVideo envSlow "https://youtu.be/abc" []).fs = [] := by decide

example :
    (processVideo envSlow "https://youtu.be/abc" []).tempFiles =
      [videoTempPath, audioTempPath] := by decide

/-! ## Helper lemmas -/

/-- Index of the first successful strategy outcome, if any. -/
def firstOkIdx : List (Except String Unit) → Option Nat
  | [] => none
  | .ok _ :: _ => some 0
  | .error _ :: rest => (firstOkIdx rest).map (· + 1)

theorem dlChain_firstOk (out : String) :
    ∀ (l : List (Except String Unit)) (lastErr : Option String) (i : Nat),
      firstOkIdx l = some i → dlChain out l lastErr = (.ok out, i + 1) := by
  intro l
  induction l with
  | nil => intro lastErr i h; simp [firstOkIdx] at h
  | cons s rest ih =>
    intro lastErr i h
    cases s with
    | ok _ =>
      simp [firstOkIdx] at h
      subst h
      rfl
    | error e =>
      simp [firstOkIdx] at h
      obtain ⟨j, hj, hji⟩ := h
      subst hji
      simp [dlChain, ih (some e) j hj]

theorem dlChain_ok_path (out : String) :
    ∀ (l : List (Except String Unit)) (lastErr : Option String) (r : String),
      (dlChain out l lastErr).1 = .ok r → r = out := by
  intro l
  induction l with
  | nil => intro lastErr r h; simp [dlChain] at h
  | cons s rest ih =>
    intro lastErr r h
    cases s with
    | ok _ => simp [dlChain] at h; exact h.symm
    | error e => simp [dlChain] at h; exact ih (some e) r h

theorem downloadVideo_ok_path (s1 s2 s3 s4 : Except String Unit) (out r : String)
    (h : (downloadVideo s1 s2 s3 s4 out).1 = .ok r) : r = out :=
  dlChain_ok_path out [s1, s2, s3, s4] none r h

theorem transcribeAudioWhisper_state_loaded (st : TranscriberState) (m : String)
    (h : st.whisperModel = some m) (o : Except String String) :
    (transcribeAudioWhisper st o).1 = st := by
  cases o <;> simp [transcribeAudioWhisper, h]

theorem runTranscriptions_loaded (m : String) :
    ∀ (outs : List (Except String String)) (st : TranscriberState),
      st.whisperModel = some m → runTranscriptions st outs = st := by
  intro outs
  induction outs with
  | nil => intro st _; rfl
  | cons o os ih =>
    intro st h
    simp only [runTranscriptions]
    rw [transcribeAudioWhisper_state_loaded st m h o]
    exact ih st h

theorem transcribeAudioWhisper_first_call (size : String) (o : Except String String) :
    (transcribeAudioWhisper (initTranscriber size) o).1 =
      { whisperModelSize := size, whisperModel := some size, loads := 1 } := by
  cases o <;> rfl

theorem not_mem_cleanupFs (fs temps : List String) (p : String) (hp : p ∈ temps) :
    p ∉ cleanupFs fs temps := by
  intro hmem
  rw [cleanupFs] at hmem
  have h2 := (List.mem_filter.mp hmem).2
  rw [List.contains, List.elem_eq_true_of_mem hp] at h2
  exact Bool.noConfusion h2

theorem finishRun_fs (env : Env) (vid t : String) (temps fs : List String) (dl : Bool) :
    (finishRun env vid t temps fs dl).fs = cleanupFs fs temps := by
  unfold finishRun
  rcases h : summarizeWithOpenai env.summary with e | s <;> simp

theorem finishRun_tempFiles (env : Env) (vid t : String) (temps fs : List String)
    (dl : Bool) : (finishRun env vid t temps fs dl).tempFiles = temps := by
  unfold finishRun
  rcases h : summarizeWithOpenai env.summary with e | s <;> simp

theorem finishRun_dlInvoked (env : Env) (vid t : String) (temps fs : List String)
    (dl : Bool) : (finishRun env vid t temps fs dl).dlInvoked = dl := by
  unfold finishRun
  rcases h : summarizeWithOpenai env.summary with e | s <;> simp

theorem cleanedUp_finishRun (env : Env) (vid t : String) (temps fs : List String)
    (dl : Bool) (p : String) (hp : p ∈ (finishRun env vid t temps fs dl).tempFiles) :
    p ∉ (finishRun env vid t temps fs dl).fs := by
  rw [finishRun_tempFiles] at hp
  rw [finishRun_fs]
  exact not_mem_cleanupFs fs temps p hp

theorem cleanedUp_slowPath (env : Env) (vid : String) (fs : List String) (p : String)
    (hp : p ∈ (slowPath env vid fs).tempFiles) : p ∉ (slowPath env vid fs).fs := by
  unfold slowPath at hp ⊢
  cases hdl : (downloadVideo env.stratBasic env.stratHeaders env.stratCookies
      env.stratRetries videoTempPath).1 with
  | error e => simp [hdl] at hp
  | ok vp =>
    simp only [hdl] at hp ⊢
    cases hex : extractAudioFfmpeg env.extract with
    | error e =>
      simp only [hex] at hp ⊢
      exact not_mem_cleanupFs _ _ _ hp
    | ok u =>
      simp only [hex] at hp ⊢
      cases hinf : (transcribeAudioWhisper (initTranscriber "base") env.inference).2 with
      | error e =>
        simp only [hinf] at hp ⊢
        exact not_mem_cleanupFs _ _ _ hp
      | ok text =>
        simp only [hinf] at hp ⊢
        exact cleanedUp_finishRun _ _ _ _ _ _ _ hp

theorem string_append_ne_empty (a b : String) (h : a ≠ "") : a ++ b ≠ "" := by
  intro he
  apply h
  have hd : a.data ++ b.data = ([] : List Char) := by
    have h2 := congrArg String.data he
    simpa [String.data_append] using h2
  exact String.ext (List.append_eq_nil.mp hd).1

theorem summarizeWithOpenai_error_shape (o : Except String String) (e : String)
    (h : summarizeWithOpenai o = .error e) :
    ∃ s, e = "Erro ao gerar resumo com OpenAI: " ++ s := by
  cases o with
  | ok s => exact absurd h (by simp [summarizeWithOpenai])
  | error e0 =>
    refine ⟨e0, ?_⟩
    have h2 := h.symm.trans (rfl : summarizeWithOpenai (.error e0) =
      .error ("Erro ao gerar resumo com OpenAI: " ++ e0))
    exact Except.error.inj h2

theorem dlChain_error_shape (out : String) :
    ∀ (l : List (Except String Unit)) (lastErr : Option String) (e : String),
      (dlChain out l lastErr).1 = .error e →
      ∃ s, e = "Erro ao baixar vídeo: " ++ s := by
  intro l
  induction l with
  | nil =>
    intro lastErr e h
    exact ⟨lastErrStr lastErr, (Except.error.inj h).symm⟩
  | cons s rest ih =>
    intro lastErr e h
    cases s with
    | ok _ => simp [dlChain] at h
    | error e0 => exact ih (some e0) e h

theorem downloadVideo_error_shape (s1 s2 s3 s4 : Except String Unit) (out e : String)
    (h : (downloadVideo s1 s2 s3 s4 out).1 = .error e) :
    ∃ s, e = "Erro ao baixar vídeo: " ++ s :=
  dlChain_error_shape out [s1, s2, s3, s4] none e h

theorem extractAudioFfmpeg_error_ne (o : ExtractOutcome) (e : String)
    (h : extractAudioFfmpeg o = .error e) : e ≠ "" := by
  cases o with
  | ok => exact absurd h (by simp [extractAudioFfmpeg])
  | procError e0 =>
    have he : e = "Erro ao executar ffmpeg: " ++ e0 := (Except.error.inj h).symm
    rw [he]
    exact string_append_ne_empty _ _ (by decide)
  | ffmpegMissing =>
    have he : e = "FFmpeg não encontrado. Instale o FFmpeg." := (Except.error.inj h).symm
    rw [he]
    decide

theorem transcribeAudioWhisper_error_shape (st : TranscriberState)
    (inference : Except String String) (e : String)
    (h : (transcribeAudioWhisper st inference).2 = .error e) :
    ∃ s, e = "Erro na transcrição: " ++ s := by
  cases inference with
  | ok t => exact absurd h (by simp [transcribeAudioWhisper])
  | error e0 =>
    refine ⟨e0, ?_⟩
    have h2 : (transcribeAudioWhisper st (.error e0)).2 =
        .error ("Erro na transcrição: " ++ e0) := by
      simp [transcribeAudioWhisper]
    exact Except.error.inj (h.symm.trans h2)

/-- The result shape Claim C1 asserts for every non-raising run. -/
def wellShapedResult (vid : String) (r : PipelineResult) : Prop :=
  r.video_id = vid ∧ (r.success = false → r.error ≠ none ∧ r.error ≠ some "")

theorem failureResult_wellShaped (vid e : String) (he : e ≠ "") :
    wellShapedResult vid (failureResult vid e) := by
  refine ⟨rfl, fun _ => ⟨by simp [failureResult], ?_⟩⟩
  simp [failureResult]
  exact he

theorem finishRun_shape (env : Env) (vid t : String) (temps fs : List String)
    (dl : Bool) :
    ∃ r, (finishRun env vid t temps fs dl).outcome = .ok r ∧ wellShapedResult vid r := by
  unfold finishRun
  cases hsum : summarizeWithOpenai env.summary with
  | error e =>
    obtain ⟨s, hs⟩ := summarizeWithOpenai_error_shape env.summary e hsum
    refine ⟨failureResult vid e, by simp, failureResult_wellShaped vid e ?_⟩
    rw [hs]
    exact string_append_ne_empty _ _ (by decide)
  | ok s =>
    exact ⟨_, rfl, rfl, fun hf => Bool.noConfusion hf⟩

theorem slowPath_shape (env : Env) (vid : String) (fs : List String) :
    ∃ r, (slowPath env vid fs).outcome = .ok r ∧ wellShapedResult vid r := by
  unfold slowPath
  cases hdl : (downloadVideo env.stratBasic env.stratHeaders env.stratCookies
      env.stratRetries videoTempPath).1 with
  | error e =>
    obtain ⟨s, hs⟩ := downloadVideo_error_shape _ _ _ _ _ e hdl
    refine ⟨failureResult vid e, by simp, failureResult_wellShaped vid e ?_⟩
    rw [hs]
    exact string_append_ne_empty _ _ (by decide)
  | ok vp =>
    cases hex : extractAudioFfmpeg env.extract with
    | error e =>
      exact ⟨failureResult vid e, by simp,
        failureResult_wellShaped vid e (extractAudioFfmpeg_error_ne env.extract e hex)⟩
    | ok u =>
      cases hinf : (transcribeAudioWhisper (initTranscriber "base") env.inference).2 with
      | error e =>
        obtain ⟨s, hs⟩ := transcribeAudioWhisper_error_shape _ _ e hinf
        refine ⟨failureResult vid e, by simp, failureResult_wellShaped vid e ?_⟩
        rw [hs]
        exact string_append_ne_empty _ _ (by decide)
      | ok text =>
        exact finishRun_shape env vid text ([vp] ++ [audioTempPath]) (audioTempPath :: vp :: fs) true

theorem processVideo_shape (env : Env) (url : String) (fs : List String)
    (vid : String) (hvid : extractVideoId url = some vid) :
    ∃ r, (processVideo env url fs).outcome = .ok r ∧ wellShapedResult vid r := by
  unfold processVideo
  simp only [hvid]
  cases hcap : getYoutubeTranscript env.captions with
  | none => exact slowPath_shape env vid fs
  | some t =>
    cases ht : (t == "") with
    | true => simpa [ht] using slowPath_shape env vid fs
    | false => simpa [ht] using finishRun_shape env vid t [] fs false

/-! ### Regex lemmas for Claim C7 -/

/-- The scheme-and-host part `https://www.` common to the long and embed
URL forms; it contains no `y`, so pattern 1 cannot match inside it. -/
def httpsWww : List Char :=
  ['h', 't', 't', 'p', 's', ':', '/', '/', 'w', 'w', 'w', '.']

/-- The scheme part `https://` of the short-link form. -/
def httpsOnly : List Char :=
  ['h', 't', 't', 'p', 's', ':', '/', '/']

theorem takeWhile_clean :
    ∀ l : List Char, (∀ c ∈ l, isForbidden c = false) →
      l.takeWhile (fun c => !isForbidden c) = l := by
  intro l
  induction l with
  | nil => intro _; rfl
  | cons c cs ih =>
    intro h
    have hc : isForbidden c = false := h c (by simp)
    rw [List.takeWhile_cons]
    simp only [hc, Bool.not_false, if_true]
    rw [ih (fun c2 h2 => h c2 (by simp [h2]))]

theorem captureFrom_clean (l : List Char) (hne : l ≠ [])
    (h : ∀ c ∈ l, isForbidden c = false) : captureFrom l = some l := by
  rw [captureFrom, takeWhile_clean l h]
  cases l with
  | nil => exact absurd rfl hne
  | cons c cs => rfl

theorem startsWithL_self_append (p v : List Char) : startsWithL p (p ++ v) = true := by
  induction p with
  | nil => rfl
  | cons c cs ih => simp [startsWithL, ih]

theorem tryAlt_self (alt v : List Char) : tryAlt alt (alt ++ v) = captureFrom v := by
  simp [tryAlt, startsWithL_self_append, List.drop_left]

theorem tryAlt_of_startsWithL_false (alt s : List Char)
    (h : startsWithL alt s = false) : tryAlt alt s = none := by
  simp [tryAlt, h]

theorem startsWithL_watch_short (v : List Char) :
    startsWithL altWatch (altShort ++ v) = false := by
  have h : (('b' : Char) == '.') = false := by decide
  simp [altWatch, altShort, startsWithL, h]

theorem startsWithL_watch_embed (v : List Char) :
    startsWithL altWatch (altEmbed ++ v) = false := by
  have h : (('w' : Char) == 'e') = false := by decide
  simp [altWatch, altEmbed, startsWithL, h]

theorem startsWithL_short_embed (v : List Char) :
    startsWithL altShort (altEmbed ++ v) = false := by
  have h : (('.' : Char) == 'b') = false := by decide
  simp [altShort, altEmbed, startsWithL, h]

theorem tryAlts_watch_self (v : List Char) (hv : captureFrom v = some v) :
    tryAlts (altWatch ++ v) = some v := by
  unfold tryAlts
  rw [tryAlt_self, hv]

theorem tryAlts_short_self (v : List Char) (hv : captureFrom v = some v) :
    tryAlts (altShort ++ v) = some v := by
  unfold tryAlts
  rw [tryAlt_of_startsWithL_false _ _ (startsWithL_watch_short v), tryAlt_self, hv]

theorem tryAlts_embed_self (v : List Char) (hv : captureFrom v = some v) :
    tryAlts (altEmbed ++ v) = some v := by
  unfold tryAlts
  rw [tryAlt_of_startsWithL_false _ _ (startsWithL_watch_embed v),
    tryAlt_of_startsWithL_false _ _ (startsWithL_short_embed v), tryAlt_self, hv]

theorem tryAlts_not_y (c : Char) (cs : List Char) (hc : c ≠ 'y') :
    tryAlts (c :: cs) = none := by
  have h1 : (('y' : Char) == c) = false :=
    beq_eq_false_iff_ne.mpr (fun h => hc h.symm)
  simp [tryAlts, tryAlt, altWatch, altShort, altEmbed, startsWithL, h1]

theorem searchPat1_skip (u v : List Char) (hu : ∀ c ∈ u, c ≠ 'y') :
    searchPat1 (u ++ v) = searchPat1 v := by
  induction u with
  | nil => rfl
  | cons c cs ih =>
    rw [List.cons_append]
    have h1 : tryAlts (c :: (cs ++ v)) = none := tryAlts_not_y c _ (hu c (by simp))
    simp only [searchPat1, h1]
    exact ih (fun c2 hc2 => hu c2 (by simp [hc2]))

theorem searchPat1_of_tryAlts (s cap : List Char) (hne : s ≠ [])
    (h : tryAlts s = some cap) : searchPat1 s = some cap := by
  cases s with
  | nil => exact absurd rfl hne
  | cons c cs => simp only [searchPat1, h]

theorem finishRun_success_method (env : Env) (vid t : String) (temps fs : List String)
    (dl : Bool) (r : PipelineResult)
    (hok : (finishRun env vid t temps fs dl).outcome = .ok r) (hs : r.success = true) :
    r.method = some (if temps.isEmpty then "youtube_transcript" else "whisper") := by
  unfold finishRun at hok
  cases hsum : summarizeWithOpenai env.summary with
  | error e =>
    simp only [hsum] at hok
    have hr := Except.ok.inj hok
    rw [← hr] at hs
    exact absurd hs (by simp [failureResult])
  | ok s =>
    simp only [hsum] at hok
    have hr := Except.ok.inj hok
    rw [← hr]

theorem slowPath_success_method (env : Env) (vid : String) (fs : List String)
    (r : PipelineResult) (hok : (slowPath env vid fs).outcome = .ok r)
    (hs : r.success = true) : r.method = some "whisper" := by
  unfold slowPath at hok
  cases hdl : (downloadVideo env.stratBasic env.stratHeaders env.stratCookies
      env.stratRetries videoTempPath).1 with
  | error e =>
    simp only [hdl] at hok
    have hr := Except.ok.inj hok
    rw [← hr] at hs
    exact absurd hs (by simp [failureResult])
  | ok vp =>
    simp only [hdl] at hok
    cases hex : extractAudioFfmpeg env.extract with
    | error e =>
      simp only [hex] at hok
      have hr := Except.ok.inj hok
      rw [← hr] at hs
      exact absurd hs (by simp [failureResult])
    | ok u =>
      simp only [hex] at hok
      cases hinf : (transcribeAudioWhisper (initTranscriber "base") env.inference).2 with
      | error e =>
        simp only [hinf] at hok
        have hr := Except.ok.inj hok
        rw [← hr] at hs
        exact absurd hs (by simp [failureResult])
      | ok text =>
        simp only [hinf] at hok
        have hm := finishRun_success_method env vid text ([vp] ++ [audioTempPath])
          (audioTempPath :: vp :: fs) true r hok hs
        simpa using hm

theorem slowPath_dlInvoked (env : Env) (vid : String) (fs : List String) :
    (slowPath env vid fs).dlInvoked = true := by
  unfold slowPath
  cases hdl : (downloadVideo env.stratBasic env.stratHeaders env.stratCookies
      env.stratRetries videoTempPath).1 with
  | error e => rfl
  | ok vp =>
    cases hex : extractAudioFfmpeg env.extract with
    | error e => rfl
    | ok u =>
      cases hinf : (transcribeAudioWhisper (initTranscriber "base") env.inference).2 with
      | error e => rfl
      | ok text => exact finishRun_dlInvoked env vid text _ _ true

/-! ## Claim theorems -/

/-- An environment whose caption capability succeeds with an empty
fragment list. -/
def envEmptyCaps : Env := { envFast with captions := .ok [] }

/-- The success record of a fast-path run in `envFast`. -/
def fastResult : PipelineResult :=
  { video_id := "abc", transcript := some "olá mundo", summary := some "resumo",
    method := some "youtube_transcript", error := none, success := true }

/-- The success record of a slow-path run in `envSlow` or `envEmptyCaps`. -/
def slowResult : PipelineResult :=
  { video_id := "abc", transcript := some "fala", summary := some "resumo",
    method := some "whisper", error := none, success := true }

/-- Claim C1 counterexample: on the malformed URL "not a url" (matching
no video-id pattern) `process_video` raises
`ValueError("URL do YouTube inválida")` past its boundary — line 319 runs
`_extract_video_id` before the `try` block — instead of returning a
`success=false` result. -/
theorem process_video_malformed_raises_cex :
    (processVideo envFast "not a url" []).outcome =
      .error "URL do YouTube inválida" := by decide

/-- Claim C1 (corrected): for every URL from which a video id is
extracted, `process_video` returns a result record (it never raises) that
carries the extracted id, and every internal failure is converted to
`success=false` with a non-empty error message; for malformed URLs it
raises `ValueError` instead of returning (see the counterexample). -/
theorem process_video_wellformed_total (env : Env) (url : String)
    (fs : List String) (vid : String) (hvid : extractVideoId url = some vid) :
    (∀ e, (processVideo env url fs).outcome ≠ Except.error e) ∧
    (∀ r, (processVideo env url fs).outcome = Except.ok r →
      r.video_id = vid ∧ (r.success = false → r.error ≠ none ∧ r.error ≠ some "")) := by
  obtain ⟨r0, hr0, hshape⟩ := processVideo_shape env url fs vid hvid
  constructor
  · intro e he
    rw [hr0] at he
    exact Except.noConfusion he
  · intro r hr
    rw [hr0] at hr
    have h2 := Except.ok.inj hr
    rw [← h2]
    exact hshape

/-- Witness for the corrected C1: a concrete well-formed URL neither
raises nor yields an ill-shaped result. -/
theorem process_video_wellformed_total_witness :
    (processVideo envFast "https://youtu.be/abc" []).outcome ≠
      Except.error "boom" ∧
    (fastResult.video_id = "abc" ∧
      (fastResult.success = false →
        fastResult.error ≠ none ∧ fastResult.error ≠ some "")) :=
  ⟨(process_video_wellformed_total envFast "https://youtu.be/abc" [] "abc"
      (by decide)).1 "boom",
   (process_video_wellformed_total envFast "https://youtu.be/abc" [] "abc"
      (by decide)).2 fastResult (by decide)⟩

/-- Claim C3 counterexample: the caption fetch succeeds (it returns a
value — the empty string obtained from an empty fragment list), the run
succeeds, yet the method tag is "whisper" and not the platform-caption
tag, refuting the stated iff between the method tag and fetch success. -/
theorem process_video_method_fetch_cex :
    (getYoutubeTranscript envEmptyCaps.captions).isSome = true ∧
    (processVideo envEmptyCaps "https://youtu.be/abc" []).outcome =
      .ok slowResult ∧
    slowResult.method ≠ some "youtube_transcript" :=
  ⟨by decide, by decide, by decide⟩

/-- Claim C3 (corrected): on a successful run, the method tag equals the
platform-caption tag "youtube_transcript" iff the caption fetch returned
non-empty text; when the fetch fails, or succeeds with empty text, the
tag is the speech-model tag "whisper". -/
theorem process_video_method_iff_nonempty_caption (env : Env) (url : String)
    (fs : List String) (r : PipelineResult)
    (hok : (processVideo env url fs).outcome = .ok r) (hs : r.success = true) :
    r.method = some "youtube_transcript" ↔
      ∃ t, getYoutubeTranscript env.captions = some t ∧ t ≠ "" := by
  unfold processVideo at hok
  cases hvid : extractVideoId url with
  | none => simp [hvid] at hok
  | some vid =>
    simp only [hvid] at hok
    cases hcap : getYoutubeTranscript env.captions with
    | none =>
      simp only [hcap] at hok
      rw [slowPath_success_method env vid fs r hok hs]
      apply iff_of_false
      · decide
      · rintro ⟨t, hteq, htne⟩
        exact Option.noConfusion hteq
    | some t =>
      simp only [hcap] at hok
      cases ht : (t == "") with
      | true =>
        have hok2 : (slowPath env vid fs).outcome = .ok r := by simpa [ht] using hok
        rw [slowPath_success_method env vid fs r hok2 hs]
        have hte : t = "" := eq_of_beq ht
        apply iff_of_false
        · decide
        · rintro ⟨t2, hteq, htne⟩
          exact htne ((Option.some.inj hteq).symm.trans hte)
      | false =>
        have hok2 : (finishRun env vid t [] fs false).outcome = .ok r := by
          simpa [ht] using hok
        have hm := finishRun_success_method env vid t [] fs false r hok2 hs
        simp only [List.isEmpty_nil, if_true] at hm
        rw [hm]
        exact iff_of_true rfl ⟨t, rfl, ne_of_beq_false ht⟩

/-- Witness for the corrected C3: on a concrete caption-path run the iff
is inhabited on both sides. -/
theorem process_video_method_iff_nonempty_caption_witness :
    fastResult.method = some "youtube_transcript" ↔
      ∃ t, getYoutubeTranscript envFast.captions = some t ∧ t ≠ "" :=
  process_video_method_iff_nonempty_caption envFast "https://youtu.be/abc" []
    fastResult (by decide) (by decide)

/-- Claim C10 (confirmed): when the caption capability succeeds with an
empty fragment list (joined caption text = ""), `process_video` treats
captions as unavailable — the falsiness test at line 327 — and takes the
slow path: the download chain is invoked, and a successful run is tagged
"whisper". -/
theorem empty_captions_takes_slow_path (env : Env) (url : String)
    (fs : List String) (vid : String) (hvid : extractVideoId url = some vid)
    (hcap : env.captions = .ok []) :
    (processVideo env url fs).dlInvoked = true ∧
    ∀ r, (processVideo env url fs).outcome = .ok r → r.success = true →
      r.method = some "whisper" := by
  have hg : getYoutubeTranscript env.captions = some "" := by rw [hcap]; rfl
  constructor
  · unfold processVideo
    simp only [hvid, hg]
    simpa using slowPath_dlInvoked env vid fs
  · intro r hok hs
    unfold processVideo at hok
    simp only [hvid, hg] at hok
    have hok2 : (slowPath env vid fs).outcome = .ok r := by simpa using hok
    exact slowPath_success_method env vid fs r hok2 hs

/-- Witness for C10: a concrete run with an empty caption list invokes
the download chain and ends tagged "whisper". -/
theorem empty_captions_takes_slow_path_witness :
    (processVideo envEmptyCaps "https://youtu.be/abc" []).dlInvoked = true ∧
    slowResult.method = some "whisper" :=
  ⟨(empty_captions_takes_slow_path envEmptyCaps "https://youtu.be/abc" [] "abc"
      (by decide) (by decide)).1,
   (empty_captions_takes_slow_path envEmptyCaps "https://youtu.be/abc" [] "abc"
      (by decide) (by decide)).2 slowResult (by decide) (by decide)⟩

/-- Claim C7 (confirmed): for every identifier token accepted by the
capture class (non-empty, containing none of `&`, newline, `?`, `#`), the
long watch-URL form, the short-link form and the embed form built from
that token all extract the identical identifier. -/
theorem extract_video_id_same_for_all_forms (t : String) (hne : t ≠ "")
    (hclean : ∀ c ∈ t.data, isForbidden c = false) :
    extractVideoId ("https://www.youtube.com/watch?v=" ++ t) = some t ∧
    extractVideoId ("https://youtu.be/" ++ t) = some t ∧
    extractVideoId ("https://www.youtube.com/embed/" ++ t) = some t := by
  have hdata : t.data ≠ [] := fun hd => hne (String.ext hd)
  have hcap : captureFrom t.data = some t.data := captureFrom_clean t.data hdata hclean
  refine ⟨?_, ?_, ?_⟩
  · have hpre : "https://www.youtube.com/watch?v=".data = httpsWww ++ altWatch := by
      decide
    have hs1 : searchPat1 (("https://www.youtube.com/watch?v=" ++ t).data) =
        some t.data := by
      rw [String.data_append, hpre, List.append_assoc,
        searchPat1_skip httpsWww _ (by decide)]
      exact searchPat1_of_tryAlts _ _ (by simp [altWatch])
        (tryAlts_watch_self t.data hcap)
    unfold extractVideoId
    rw [hs1]
  · have hpre : "https://youtu.be/".data = httpsOnly ++ altShort := by decide
    have hs1 : searchPat1 (("https://youtu.be/" ++ t).data) = some t.data := by
      rw [String.data_append, hpre, List.append_assoc,
        searchPat1_skip httpsOnly _ (by decide)]
      exact searchPat1_of_tryAlts _ _ (by simp [altShort])
        (tryAlts_short_self t.data hcap)
    unfold extractVideoId
    rw [hs1]
  · have hpre : "https://www.youtube.com/embed/".data = httpsWww ++ altEmbed := by
      decide
    have hs1 : searchPat1 (("https://www.youtube.com/embed/" ++ t).data) =
        some t.data := by
      rw [String.data_append, hpre, List.append_assoc,
        searchPat1_skip httpsWww _ (by decide)]
      exact searchPat1_of_tryAlts _ _ (by simp [altEmbed])
        (tryAlts_embed_self t.data hcap)
    unfold extractVideoId
    rw [hs1]

/-- Witness for C7: the token "abc123" extracts identically from all
three URL forms. -/
theorem extract_video_id_same_for_all_forms_witness :
    extractVideoId ("https://www.youtube.com/watch?v=" ++ "abc123") = some "abc123" ∧
    extractVideoId ("https://youtu.be/" ++ "abc123") = some "abc123" ∧
    extractVideoId ("https://www.youtube.com/embed/" ++ "abc123") = some "abc123" :=
  extract_video_id_same_for_all_forms "abc123" (by decide) (by decide)

/-- Claim C2 (confirmed): every temporary artifact recorded by a run of
`process_video` (the downloaded container and the extracted audio file)
has been deleted by the unconditional `finally` block before the run
returns: no path in the run's `temp_files` is in the final filesystem. -/
theorem process_video_temp_files_cleaned (env : Env) (url : String)
    (fs : List String) (p : String)
    (hp : p ∈ (processVideo env url fs).tempFiles) :
    p ∉ (processVideo env url fs).fs := by
  unfold processVideo at hp ⊢
  cases hvid : extractVideoId url with
  | none => simp [hvid] at hp
  | some vid =>
    simp only [hvid] at hp ⊢
    cases hcap : getYoutubeTranscript env.captions with
    | none =>
      simp only [hcap] at hp ⊢
      exact cleanedUp_slowPath env vid fs p hp
    | some t =>
      simp only [hcap] at hp ⊢
      cases ht : (t == "") with
      | true =>
        simp only [ht, if_true] at hp ⊢
        exact cleanedUp_slowPath env vid fs p hp
      | false =>
        simp only [ht, if_false] at hp ⊢
        exact cleanedUp_finishRun env vid t [] fs false p hp

/-- Witness for C2: in a full slow-path run the downloaded container path
is a recorded temporary file and is gone from the final filesystem. -/
theorem process_video_temp_files_cleaned_witness :
    videoTempPath ∈ (processVideo envSlow "https://youtu.be/abc" []).tempFiles ∧
    videoTempPath ∉ (processVideo envSlow "https://youtu.be/abc" []).fs :=
  ⟨by decide, process_video_temp_files_cleaned envSlow "https://youtu.be/abc" []
    videoTempPath (by decide)⟩

theorem slowPath_tempFiles_sub (env : Env) (vid : String) (fs : List String)
    (p : String) (hp : p ∈ (slowPath env vid fs).tempFiles) :
    p = videoTempPath ∨ p = audioTempPath := by
  unfold slowPath at hp
  cases hdl : (downloadVideo env.stratBasic env.stratHeaders env.stratCookies
      env.stratRetries videoTempPath).1 with
  | error e => simp [hdl] at hp
  | ok vp =>
    have hvp : vp = videoTempPath :=
      downloadVideo_ok_path env.stratBasic env.stratHeaders env.stratCookies
        env.stratRetries videoTempPath vp hdl
    subst hvp
    simp only [hdl] at hp
    cases hex : extractAudioFfmpeg env.extract with
    | error e =>
      simp [hex] at hp
      exact Or.inl hp
    | ok u =>
      simp only [hex] at hp
      cases hinf : (transcribeAudioWhisper (initTranscriber "base") env.inference).2 with
      | error e =>
        simp [hinf] at hp
        exact hp
      | ok text =>
        simp only [hinf] at hp
        rw [finishRun_tempFiles] at hp
        simp at hp
        exact hp

/-- Claim C8 counterexample: two runs on distinct URLs (distinct runs)
both record exactly the hardcoded paths `temp_video.mp4` and
`temp_audio.wav`, so the artifact paths of the two runs coincide instead
of being distinct. -/
theorem temp_paths_equal_across_runs_cex :
    "https://youtu.be/abc" ≠ "https://youtu.be/xyz" ∧
    (processVideo envSlow "https://youtu.be/abc" []).tempFiles =
      [videoTempPath, audioTempPath] ∧
    (processVideo envSlow "https://youtu.be/xyz" []).tempFiles =
      [videoTempPath, audioTempPath] :=
  ⟨by decide, by decide, by decide⟩

/-- Claim C8 (corrected): the temporary artifact paths are not per-run
identifiers: every run stores its artifacts at the two fixed constants
`temp_video.mp4` and `temp_audio.wav`, shared by all runs. -/
theorem temp_paths_fixed_constants (env : Env) (url : String) (fs : List String)
    (p : String) (hp : p ∈ (processVideo env url fs).tempFiles) :
    p = videoTempPath ∨ p = audioTempPath := by
  unfold processVideo at hp
  cases hvid : extractVideoId url with
  | none => simp [hvid] at hp
  | some vid =>
    simp only [hvid] at hp
    cases hcap : getYoutubeTranscript env.captions with
    | none =>
      simp only [hcap] at hp
      exact slowPath_tempFiles_sub env vid fs p hp
    | some t =>
      simp only [hcap] at hp
      cases ht : (t == "") with
      | true =>
        simp only [ht, if_true] at hp
        exact slowPath_tempFiles_sub env vid fs p hp
      | false =>
        have hp2 : p ∈ (finishRun env vid t [] fs false).tempFiles := by
          simpa [ht] using hp
        rw [finishRun_tempFiles] at hp2
        simp at hp2

/-- Witness for the corrected C8: the container artifact of a concrete
slow-path run is one of the two fixed paths. -/
theorem temp_paths_fixed_constants_witness :
    videoTempPath = videoTempPath ∨ videoTempPath = audioTempPath :=
  temp_paths_fixed_constants envSlow "https://youtu.be/xyz" [] videoTempPath
    (by decide)

/-- Claim C4 (confirmed): `download_video` attempts the four strategies in
the fixed source order basic, headers, browser-cookies, retries; the first
strategy that succeeds terminates the chain (exactly `i + 1` strategies
are invoked when the first success is at zero-based index `i`), and the
destination path is returned. -/
theorem download_video_first_success_wins (s1 s2 s3 s4 : Except String Unit)
    (out : String) (i : Nat) (h : firstOkIdx [s1, s2, s3, s4] = some i) :
    downloadVideo s1 s2 s3 s4 out = (.ok out, i + 1) :=
  dlChain_firstOk out [s1, s2, s3, s4] none i h

/-- Witness for C4: the first strategy fails, the second succeeds, the
chain stops after two attempts and returns the destination path. -/
theorem download_video_first_success_wins_witness :
    firstOkIdx [.error "bot detected", .ok (), .ok (), .error "x"] = some 1 ∧
    downloadVideo (.error "bot detected") (.ok ()) (.ok ()) (.error "x")
      videoTempPath = (.ok videoTempPath, 2) :=
  ⟨by decide, download_video_first_success_wins _ _ _ _ _ 1 (by decide)⟩

/-- Claim C5 (confirmed): when all four strategies fail, `download_video`
raises `Exception(f"Erro ao baixar vídeo: {last_error}")`, wrapping only
the failure of the last strategy — the message does not depend on the
errors of the first three strategies. -/
theorem download_video_all_fail_wraps_last_error (e1 e2 e3 e4 out : String) :
    downloadVideo (.error e1) (.error e2) (.error e3) (.error e4) out =
      (.error ("Erro ao baixar vídeo: " ++ e4), 4) := rfl

/-- Claim C6 (confirmed): `get_youtube_transcript` converts every
underlying failure of the caption-retrieval capability into the value
`None` instead of letting the exception propagate. -/
theorem get_youtube_transcript_failure_returns_none :
    ∀ e : String, getYoutubeTranscript (Except.error e) = none :=
  fun _ => rfl

/-- Claim C9 (confirmed): on one transcriber instance the Whisper model is
loaded at most once: it is constructed during the first
`transcribe_audio_whisper` call (with the configured size tag) and every
later call reuses that instance without constructing a new model. -/
theorem whisper_model_loaded_at_most_once (size : String)
    (outs : List (Except String String)) :
    (runTranscriptions (initTranscriber size) outs).loads ≤ 1 ∧
    (outs ≠ [] →
      (runTranscriptions (initTranscriber size) outs).loads = 1 ∧
      (runTranscriptions (initTranscriber size) outs).whisperModel = some size) := by
  cases outs with
  | nil =>
    exact ⟨Nat.zero_le 1, fun h => absurd rfl h⟩
  | cons o os =>
    have h1 : runTranscriptions (initTranscriber size) (o :: os) =
        { whisperModelSize := size, whisperModel := some size, loads := 1 } := by
      simp only [runTranscriptions]
      rw [transcribeAudioWhisper_first_call]
      exact runTranscriptions_loaded size os _ rfl
    rw [h1]
    exact ⟨Nat.le_refl 1, fun _ => ⟨rfl, rfl⟩⟩

/-- Witness for C9: two consecutive transcription calls load the model
exactly once and leave the base model in place. -/
theorem whisper_model_loaded_at_most_once_witness :
    (runTranscriptions (initTranscriber "base") [.ok "a", .error "b"]).loads ≤ 1 ∧
    (runTranscriptions (initTranscriber "base") [.ok "a", .error "b"]).loads = 1 ∧
    (runTranscriptions (initTranscriber "base")
        [.ok "a", .error "b"]).whisperModel = some "base" := by
  have h := whisper_model_loaded_at_most_once "base" [.ok "a", .error "b"]
  exact ⟨h.1, h.2 (by decide)⟩

end YtTranscribe
